import Mathlib

/-!
A verification development for the GDELT RAG Streamlit application
(src/rag_streamlit_app.py and src/prompts.py), as a shallow embedding:
pure string manipulation is translated to Lean functions on `String` /
`List Char`, the external services (chat completion, embedding, Cosmos DB
query) are an explicit environment of `Except`-returning functions, and the
per-turn handler is a function from the conversation state to the new
conversation state together with the trace of store/embedding effects.
-/

/-- A chat message, as the dicts `{"role": ..., "content": ...}` used
throughout src/rag_streamlit_app.py. -/
structure Message where
  role : String
  content : String
deriving DecidableEq, Repr

/-- Python exceptions, as far as the app distinguishes them: `ValueError`
(raised by `generate_cosmos_sql` and by `str.format`), `KeyError` /
`IndexError` (raised by `str.format`), and any exception coming out of the
external services, carried opaquely as a numbered `serviceError`. The turn
boundary treats every constructor alike (`except Exception`). -/
inductive PyErr where
  | valueError (msg : String)
  | keyError (key : String)
  | indexError (msg : String)
  | serviceError (code : Nat)
deriving DecidableEq, Repr

/-- JSON values, for the rows Cosmos DB returns and `json.dumps`. -/
inductive Json where
  | null
  | jbool (b : Bool)
  | jnum (n : Int)
  | jstr (s : String)
  | jarr (elems : List Json)
  | jobj (fields : List (String × Json))
deriving Repr

/-- The ASCII whitespace characters Python's `str.strip` removes (the model
restricts Python's Unicode whitespace class to ASCII, which is all the app's
validation ever distinguishes). -/
def pyWhitespaceChars : List Char := [' ', '\t', '\n', '\r', '\x0b', '\x0c']

/-- Python `str.strip()`: drop leading and trailing whitespace. -/
def pyStrip (s : String) : String :=
  String.mk (((s.data.dropWhile (pyWhitespaceChars.contains ·)).reverse.dropWhile
    (pyWhitespaceChars.contains ·)).reverse)

/-- Python `str.upper()`, restricted to the per-character ASCII case map
(`Char.toUpper`), which agrees with Python on every character the
validation's `SELECT` check can meet. -/
def pyUpper (s : String) : String := String.mk (s.data.map Char.toUpper)

/-- Python `str.startswith(pre)`. -/
def pyStartswith (s pre : String) : Bool := pre.data.isPrefixOf s.data

/-- Whether `pat` occurs as a contiguous subsequence of `l`. -/
def containsSeq (pat : List Char) : List Char → Bool
  | [] => pat.isEmpty
  | c :: rest => pat.isPrefixOf (c :: rest) || containsSeq pat rest

/-- Python `pat in s` on strings. -/
def pyContains (s pat : String) : Bool := containsSeq pat.data s.data

/-- Python `l[-n:]`: the last `min n l.length` elements. -/
def takeLast (n : Nat) (l : List α) : List α := l.drop (l.length - n)

/-- The first whitespace-delimited word of a string (used only to state what
the spec's "first word" reading of the validation would require). -/
def firstWord (s : String) : String :=
  String.mk ((s.data.dropWhile (pyWhitespaceChars.contains ·)).takeWhile
    (fun c => !pyWhitespaceChars.contains c))

section PyFormat

/-- The state of Python's `str.format` template scanner: copying plain text,
just after `{`, inside a replacement-field name (accumulated reversed), or
just after `}`. -/
inductive FmtMode where
  | copy
  | sawL
  | field (accRev : List Char)
  | sawR
deriving DecidableEq, Repr

/-- The left brace character, written by code as an escape. -/
def lbChar : Char := '\x7b'

/-- The right brace character. -/
def rbChar : Char := '\x7d'

/-- Python `template.format(key=value)` for a single keyword argument, as a
character scanner: doubled braces denote literal braces, `\x7bkey\x7d` is
replaced by `value` (the substituted value is not rescanned), any other
field name raises `KeyError`, an empty field (auto-numbering with no
positional argument) raises `IndexError`, and unbalanced braces raise
`ValueError` — each with CPython's message. Conversions (`!r`) and format
specs (`:...`) are outside the model; the app's template uses neither. -/
def fmtFold (key : List Char) (val : List Char) : List Char → FmtMode → Except PyErr (List Char)
  | [], .copy => .ok []
  | [], .sawR => .error (.valueError "Single \x27\x7d\x27 encountered in format string")
  | [], .sawL => .error (.valueError "Single \x27\x7b\x27 encountered in format string")
  | [], .field _ => .error (.valueError "Single \x27\x7b\x27 encountered in format string")
  | c :: rest, .copy =>
    if c = lbChar then fmtFold key val rest .sawL
    else if c = rbChar then fmtFold key val rest .sawR
    else Except.map (fun t => c :: t) (fmtFold key val rest .copy)
  | c :: rest, .sawL =>
    if c = lbChar then Except.map (fun t => lbChar :: t) (fmtFold key val rest .copy)
    else if c = rbChar then
      .error (.indexError "Replacement index 0 out of range for positional args tuple")
    else fmtFold key val rest (.field [c])
  | c :: rest, .field acc =>
    if c = rbChar then
      if acc.reverse = key then Except.map (fun t => val ++ t) (fmtFold key val rest .copy)
      else .error (.keyError (String.mk acc.reverse))
    else if c = lbChar then .error (.valueError "unexpected \x27\x7b\x27 in field name")
    else fmtFold key val rest (.field (c :: acc))
  | c :: rest, .sawR =>
    if c = rbChar then Except.map (fun t => rbChar :: t) (fmtFold key val rest .copy)
    else .error (.valueError "Single \x27\x7d\x27 encountered in format string")

/-- Python `template.format(key=value)` with one keyword argument. -/
def pyFormat (template key value : String) : Except PyErr String :=
  Except.map String.mk (fmtFold key.data value.data template.data .copy)

/-- A character list free of both braces (no replacement field starts or
ends inside it). -/
def braceFreeL (l : List Char) : Bool := l.all (fun c => !(c = lbChar || c = rbChar))

/-- A string free of braces. -/
def braceFree (s : String) : Bool := braceFreeL s.data

end PyFormat

section SystemPrompt

/- The value returned by prompts.get_system_prompt (src/prompts.py, lines
20-349). The Python function returns an f-string in which every doubled
brace denotes a literal brace, so the returned value contains the single
replacement field (left brace, today_date, right brace) literally and no
other brace. The text is transcribed verbatim (double quotes escaped,
braces as hex escapes) and split into chunks only so that decidable scans
over it stay cheap; `sysPromptPart1` / `sysPromptPart2` concatenate the
chunks back into the text before and after the replacement field, with the
canonical refusal query of the FINAL INSTRUCTION section held in its own
definition `refusalQuery`. -/

def sysP1c00 : String := "
You are an exceptionally skilled AI data analyst specializing in the GDELT events database.
Your primary function is to convert natural language questions from users into precise, executable Azure Cosmos DB for NoSQL queries. You must respond with ONLY the SQL query string.

### 1. DATABASE SCHEMA OVERVIEW ###
You are querying a container of events. Here are the detailed descriptions of the available fields:

- **id (formerly global_event_id)**: STRING - The unique identifier for an event (Primary Key).
- **event_date**: STRING - The date of the event in 'YYYY-MM-DD' format.
- **actor1_name**: STRING - The name of the primary actor involved in the event.
- **actor1_country_code**: STRING - The country code of Actor 1.
- **actor1_religion1_code**: STRING - The religion code of Actor 1.
- **actor2_name**: STRING - The name of the secondary actor involved in the event.
- **actor2_country_code**: STRING - The country code of Actor 2.
- **actor2_religion1_code**: STRING - The religion code of Actor 2.
- **event_code**: STRING - The detailed CAMEO code for the specific event type.
- **event_root_code**: STRING - The root CAMEO code for the general event category.
- **is_root_event**: BOOLEAN - True if this is a root event.
- **quad_class**: NUMBER - A 1-4 code categorizing the event type (Verbal/Material, Cooperation/Conflict).
"

def sysP1c01 : String := "- **goldstein_scale**: NUMBER - A score from -10 (extreme conflict) to +10 (extreme cooperation) indicating the event's intensity.
- **avg_tone**: NUMBER - The average sentiment of news articles about the event. Negative values are negative sentiment, positive values are positive.
- **num_mentions**: NUMBER - The number of times the event was mentioned in the news.
- **num_sources**: NUMBER - The number of unique sources that reported the event.
- **num_articles**: NUMBER - The number of articles covering the event.
- **action_geo_fullname**: STRING - The full name of the location where the event occurred (e.g., \"Seoul, South Korea\").
- **action_geo_country_code**: STRING - The 3-letter ISO country code of the event location (e.g., \"KOR\").
- **action_geo_lat**: NUMBER - The latitude of the event location.
- **action_geo_long**: NUMBER - The longitude of the event location.
- **source_url**: STRING - The URL of a source news article.
- **content**: STRING - A generated text summary of the event, used for semantic search.
- **contentVector**: VECTOR - A 1536-dimension vector embedding of the 'content' field for semantic similarity searches.
- **locationVector**: VECTOR - A 1536-dimension vector embedding of numerical and geographical features for finding events with similar quantitative patterns.

### 2. QUERY GENERATION RULES ###
"

def sysP1c02 : String := "Analyze the user's question to determine the correct query type. Today's date is "

def sysP2c00 : String := ".

**Rule 1: Semantic/Conceptual Questions**
- **Intent**: Broad, conceptual questions (\"tell me about...\", \"what are the latest developments on...\").
- **Action**: Use vector search on `contentVector`.
- **Template**: `SELECT TOP 5 c.id, c.content, c.source_url FROM c ORDER BY VectorDistance(c.contentVector, @query_vector)`

**Rule 2: Factual/Filtered Questions**
- **Intent**: Specific events based on criteria like date, location, actor, or event type.
- **Action**: Use a `WHERE` clause. Use `CONTAINS` for partial string matches.
- **Example**: \"Find all protests involving students in South Korea\": `SELECT * FROM c WHERE c.action_geo_country_code = 'KOR' AND c.event_root_code = '14' AND CONTAINS(c.actor1_name, 'STUDENT')`

**Rule 3: Aggregate Questions**
- **Intent**: \"how many\", \"what is the average/max/min...\".
- **Action**: Use aggregate functions (`COUNT`, `AVG`, `MAX`).
- **Template**: `SELECT VALUE COUNT(1) FROM c WHERE ...`

**Rule 4: Hybrid Search (Semantic + Filter)**
- **Intent**: A semantic question with specific filters.
- **Action**: Combine a `WHERE` clause with `VectorDistance` ordering.
- **Example**: \"Tell me about military conflicts in Iraq\": `SELECT TOP 5 c.id, c.content FROM c WHERE c.action_geo_country_code = 'IRQ' AND c.quad_class = 4 ORDER BY VectorDistance(c.contentVector, @query_vector)`

**Rule 5: Numerical/Geospatial Similarity Questions**
"

def sysP2c01 : String := "- **Intent**: Events with similar patterns or intensity (\"find other situations like this\").
- **Action**: Use vector search on `locationVector`.
- **Template**: `SELECT TOP 5 c.id, c.content, c.goldstein_scale, c.avg_tone FROM c ORDER BY VectorDistance(c.locationVector, @query_vector)`

### 3. CONTEXTUAL KNOWLEDGE (CAMEO CODES) ###
This is a comprehensive reference for all codes used in the database. Use it to map user intent to specific database values.

#### Event Quad Class (quad_class)
- **1**: 언어적 협력 (Verbal Cooperation)
- **2**: 물질적 협력 (Material Cooperation)
- **3**: 언어적 갈등 (Verbal Conflict)
- **4**: 물리적 갈등 (Material Conflict)

#### Event Root Codes (event_root_code)
- **01**: 공개 성명 발표
- **02**: 호소 및 요청
- **03**: 협력 의사 표명
- **04**: 협의
- **05**: 외교적 협력
- **06**: 물질적 협력
- **07**: 원조 제공
- **08**: 양보 및 수용
- **09**: 조사
- **10**: 요구
- **11**: 비판 및 반대
- **12**: 거부
- **13**: 위협
- **14**: 시위
- **15**: 무력 과시
- **16**: 관계 축소
- **17**: 강압
- **18**: 물리적 공격
- **19**: 전투
- **20**: 비전통적 대량 폭력 사용

#### Actor Role Codes (e.g., actor1_type1_code)
- **COP**: 경찰
- **GOV**: 정부
- **INS**: 정부 전복 반군
- **JUD**: 사법부
- **MIL**: 군대
- **OPP**: 야당
- **REB**: 일반 반군
- **SEP**: 분리주의 반군
- **SPY**: 국가 정보기관
- **UAF**: 중립 무장 세력
- **AGR**: 농업
- **BUS**: 기업
- **CRM**: 범죄 조직
- **CVL**: 민간인
- **DEV**: 개발
- **EDU**: 교육
- **ELI**: 엘리트
- **ENV**: 환경
- **HLH**: 보건
- **HRI**: 인권
- **LAB**: 노동
- **LEG**: 입법부
"

def sysP2c02 : String := "- **MED**: 언론
- **REF**: 난민
- **REL**: 종교 단체
- **MOD**: 온건파
- **RAD**: 급진파
- **IGO**: 국제 정부 기구
- **IMG**: 국제 무장 단체
- **INT**: 불분명한 국제 행위자
- **MNC**: 다국적 기업
- **NGM**: 비정부 운동
- **NGO**: 비정부 기구
- **UIS**: 미확인 국가 행위자
- **AMN**: 국제 앰네스티
- **IRC**: 국제 적십자사
- **GRP**: 그린피스
- **UNO**: 유엔
- **NATO**: 북대서양 조약 기구
- **IMF**: 국제 통화 기금
- **WBK**: 세계은행
- **AU**: 아프리카 연합
- **EU**: 유럽 연합
- **ASEAN**: 동남아시아 국가 연합
- **PKO**: 평화유지군
- **SET**: 정착민

#### Full Event Detail Codes (event_code)
- 010: 성명 발표
- 011: 논평 거부
- 012: 비관적 논평
- 013: 낙관적 논평
- 014: 정책 옵션 고려
- 015: 책임 인정 또는 주장
- 016: 책임 부인
- 017: 상징적 행동
- 018: 공감/위로 표명
- 019: 의견 일치 표명
- 020: 호소 및 요청
- 021: 물질적 협력 호소
- 022: 외교적 협력 호소
- 023: 원조 요청
- 024: 정치 개혁 요구
- 025: 양보 요구
- 026: 타 주체 간 회담/협상 촉구
- 027: 타 주체 간 분쟁 해결 촉구
- 028: 중재 참여 또는 수용 촉구
- 030: 협력 의사 표명
- 031: 물질적 협력 의사 표명
- 032: 외교적 협력 의사 표명
- 033: 물질적 원조 제공 의사 표명
- 034: 정치 개혁 단행 의사 표명
- 035: 양보 의사 표명
- 036: 회담 또는 협상 의사 표명
- 037: 분쟁 해결 의사 표명
- 038: 중재 수용 의사 표명
- 039: 중재 의사 표명
- 040: 협의
- 041: 전화 협의
- 042: 방문
- 043: 방문 접견
- 044: 제3국에서의 회담
- 045: 중재
- 046: 협상
- 050: 외교적 협력
- 051: 칭찬 또는 지지
- 052: 언어적 방어
- 053: 지지 규합
- 054: 외교적 승인
- 055: 사과
- 056: 용서
- 057: 공식 협정 체결
- 060: 물질적 협력
- 061: 경제적 협력
- 062: 군사적 협력
- 063: 사법 공조
- 064: 정보 공유
- 070: 원조 제공
- 071: 경제 원조 제공
- 072: 군사 원조 제공
- 073: 인도적 지원 제공
- 074: 군사 보호 또는 평화유지군 제공
- 075: 망명 허용
- 080: 양보 및 수용
- 081: 행정 제재 완화
- 082: 정치적 반대 완화
- 083: 정치 개혁 요구 수용
"

def sysP2c03 : String := "- 084: 반환 및 석방
- 085: 경제 제재/보이콧/금수 조치 완화
- 086: 국제적 개입 허용
- 087: 군사적 교전 완화
- 090: 조사
- 091: 범죄 및 부패 조사
- 092: 인권 침해 조사
- 093: 군사 행동 조사
- 094: 전쟁 범죄 조사
- 100: 요구
- 101: 물질적 협력 요구
- 102: 외교적 협력 요구
- 103: 물질적 원조 요구
- 104: 정치 개혁 요구
- 105: 양보 요구
- 106: 회담 및 협상 요구
- 107: 분쟁 해결 요구
- 108: 중재 요구
- 110: 비판 및 반대
- 111: 비난 또는 규탄
- 112: 고발
- 113: 반대 세력 규합
- 114: 공식 항의
- 115: 소송 제기
- 116: 유죄 판결
- 120: 거부
- 121: 물질적 협력 거부
- 122: 물질적 원조 요청 거부
- 123: 정치 개혁 요구 거부
- 124: 양보 거부
- 125: 회담/논의/협상 제안 거부
- 126: 중재 거부
- 127: 분쟁 해결 계획/합의 거부
- 128: 규범 및 법률 위반
- 129: 거부권 행사
- 130: 위협
- 131: 비군사적 위협
- 132: 행정 제재 위협
- 133: 정치적 반대 시위 위협
- 134: 협상 중단 위협
- 135: 중재 중단 위협
- 136: 국제적 개입 중단 위협
- 137: 탄압 위협
- 138: 무력 사용 위협
- 139: 최후통첩
- 140: 정치적 반대
- 141: 시위 또는 집회
- 142: 단식 투쟁
- 143: 파업 또는 보이콧
- 144: 통행 방해 및 봉쇄
- 145: 폭력 시위 및 폭동
- 150: 군사력 또는 경찰력 과시
- 151: 경찰 경계 태세 격상
- 152: 군사 경계 태세 격상
- 153: 경찰력 동원 또는 증강
- 154: 군대 동원 또는 증강
- 155: 사이버 부대 동원 또는 증강
- 160: 관계 축소
- 161: 외교 관계 축소 또는 단절
- 162: 물질적 원조 축소 또는 중단
- 163: 금수 조치/보이콧/제재 부과
- 164: 협상 중단
- 165: 중재 중단
- 166: 추방 또는 철수
- 170: 강압
- 171: 재산 압류 또는 손상
- 172: 행정 제재 부과
- 173: 체포, 구금 또는 기소
- 174: 개인 추방 또는 국외 이송
- 175: 폭력적 탄압 전술 사용
- 176: 사이버 공격
- 180: 비전통적 폭력 사용
- 181: 납치, 공중납치 또는 인질극
- 182: 물리적 폭행
- 183: 자살, 차량 또는 기타 비군사적 폭탄 테러
- 186: 암살
- 190: 전통적 군사력 사용
- 191: 봉쇄 및 이동 제한
- 192: 영토 점령
- 193: 소화기 및 경화기 전투
- 194: 포병 및 탱크 전투
- 195: 공중 무기 사용
- 196: 휴전 위반
- 200: 비전통적 대량 폭력 사용
"

def sysP2c04 : String := "- 201: 대규모 추방
- 202: 대량 학살
- 203: 인종 청소
- 204: 대량살상무기(WMD) 사용

#### Full Actor Religion Codes
- REL: 종교 (미지정)
- ATH: 불가지론/무신론
- BAH: 바하이 신앙
- BUD: 불교
- CTH: 가톨릭
- CHR: 기독교
- DOX: 정교회
- HIN: 힌두교
- JAN: 자이나교
- JEW: 유대교
- MOS: 이슬람
- SHI: 시아파
- SUN: 수니파
- SFI: 수피즘
- SHN: 신토
- SIK: 시크교
- TAO: 도교
- ZRO: 조로아스터교

#### Full Actor Organization Codes
- BHF: 보스니아 헤르체고비나 연방
- FTA: 파타
- HAM: 하마스
- RPF: 르완다 애국 전선
- SRP: 스릅스카 공화국
- ABD: 아프리카 경제 개발을 위한 아랍은행
- ACC: 아랍 협력 위원회
- ADB: 아시아 개발 은행
- AEU: 아랍 경제 동맹
- AFB: 아프리카 개발 은행
- AMF: 아랍 통화 기금
- AMU: 아랍 마그레브 연합
- APE: 아랍 석유 수출국 기구(OAPEC)
- ARL: 아랍 연맹
- ASN: 동남아시아 국가 연합(ASEAN)
- ... (and so on for all organizations)

### FINAL INSTRUCTION ###
Return ONLY the raw, executable SQL query string. Do not add any explanations, markdown, or other text. If you cannot generate a query, return \""

def refusalQuery : String := "SELECT 'Query generation failed: The question is too complex or ambiguous.'"

def sysP2end : String := "\"
"

def sysPromptPart1 : String := sysP1c00 ++ sysP1c01 ++ sysP1c02

def sysPromptPart2 : String := sysP2c00 ++ sysP2c01 ++ sysP2c02 ++ sysP2c03 ++ sysP2c04 ++ refusalQuery ++ sysP2end

/-- The single replacement field of the prompt template, as characters. -/
def placeholderChars : List Char := [lbChar, 't', 'o', 'd', 'a', 'y', '_', 'd', 'a', 't', 'e', rbChar]

/-- The replacement field as a string. -/
def todayPlaceholder : String := String.mk placeholderChars

/-- The full string `prompts.get_system_prompt()` returns. -/
def get_system_prompt : String := sysPromptPart1 ++ todayPlaceholder ++ sysPromptPart2

end SystemPrompt

section JsonDumps

/-- A lowercase hexadecimal digit. -/
def hexDigit (n : Nat) : Char := if n < 10 then Char.ofNat (48 + n) else Char.ofNat (87 + n)

/-- Four lowercase hex digits, as in Python's `\uXXXX` escapes. -/
def hex4 (n : Nat) : String :=
  String.mk [hexDigit (n / 4096 % 16), hexDigit (n / 256 % 16), hexDigit (n / 16 % 16),
    hexDigit (n % 16)]

/-- One character of a JSON string under `json.dumps`' default
`ensure_ascii=True`: the two-character escapes, `\u00xx` for other control
characters, `\uXXXX` for non-ASCII (surrogate pairs beyond the BMP), and the
character itself otherwise. -/
def jsonEscapeChar (c : Char) : String :=
  if c = '"' then "\\\""
  else if c = '\\' then "\\\\"
  else if c = '\n' then "\\n"
  else if c = '\r' then "\\r"
  else if c = '\t' then "\\t"
  else if c = '\x08' then "\\b"
  else if c = '\x0c' then "\\f"
  else if c.toNat < 32 ∨ 127 ≤ c.toNat then
    if c.toNat < 65536 then "\\u" ++ hex4 c.toNat
    else
      "\\u" ++ hex4 (55296 + (c.toNat - 65536) / 1024) ++ "\\u" ++
        hex4 (56320 + (c.toNat - 65536) % 1024)
  else String.singleton c

/-- A JSON string literal as `json.dumps` renders it. -/
def jsonQuote (s : String) : String :=
  "\"" ++ String.join (s.data.map jsonEscapeChar) ++ "\""

/-- `n` spaces, for `indent=2` pretty-printing. -/
def indentSpaces (n : Nat) : String := String.mk (List.replicate n ' ')

mutual

/-- `json.dumps(v, indent=2)` with the closing bracket of the value at
column `lvl`: items of a non-empty array or object go on their own lines,
two columns further in, with the default separators. -/
def jsonDumpsAt : Json → Nat → String
  | .null, _ => "null"
  | .jbool b, _ => if b then "true" else "false"
  | .jnum n, _ => toString n
  | .jstr s, _ => jsonQuote s
  | .jarr [], _ => "[]"
  | .jarr (x :: xs), lvl =>
    "[\n" ++ jsonItemsArr (x :: xs) (lvl + 2) ++ "\n" ++ indentSpaces lvl ++ "]"
  | .jobj [], _ => "\x7b\x7d"
  | .jobj (kv :: kvs), lvl =>
    "\x7b\n" ++ jsonItemsObj (kv :: kvs) (lvl + 2) ++ "\n" ++ indentSpaces lvl ++ "\x7d"

/-- The comma-and-newline separated items of an array, each at column `ind`. -/
def jsonItemsArr : List Json → Nat → String
  | [], _ => ""
  | [x], ind => indentSpaces ind ++ jsonDumpsAt x ind
  | x :: y :: rest, ind =>
    indentSpaces ind ++ jsonDumpsAt x ind ++ ",\n" ++ jsonItemsArr (y :: rest) ind

/-- The comma-and-newline separated `"key": value` items of an object. -/
def jsonItemsObj : List (String × Json) → Nat → String
  | [], _ => ""
  | [(k, v)], ind => indentSpaces ind ++ jsonQuote k ++ ": " ++ jsonDumpsAt v ind
  | (k, v) :: kv2 :: rest, ind =>
    indentSpaces ind ++ jsonQuote k ++ ": " ++ jsonDumpsAt v ind ++ ",\n" ++
      jsonItemsObj (kv2 :: rest) ind

end

/-- `json.dumps(v, indent=2)`. -/
def jsonDumps (v : Json) : String := jsonDumpsAt v 0

end JsonDumps

section AppModel

/-- One named query parameter, as the dict
`{"name": "@query_vector", "value": query_vector}` of line 154. -/
structure Param where
  name : String
  value : List Int
deriving DecidableEq, Repr

/-- The external services of src/rag_streamlit_app.py, as one environment:
`completion` is `oai_client.chat.completions.create(...).choices[0].message.content`
(the same service backs both the synthesis and the interpretation call),
`embedding` is `oai_client.embeddings.create(input=..., ...).data[0].embedding`
(the vector's numeric component type is irrelevant to the app's control
flow, so it is carried as `List Int`), and `queryItems` is
`container.query_items(query, parameters, enable_cross_partition_query)`.
An `Except.error` models the call raising. -/
structure Env where
  completion : List Message → Except PyErr String
  embedding : List String → Except PyErr (List Int)
  queryItems : String → List Param → Bool → Except PyErr (List Json)

/-- The strip-and-validate tail of `generate_cosmos_sql`
(src/rag_streamlit_app.py lines 68-76): the response content is stripped;
unless its uppercased form starts with `"SELECT"`, a `ValueError` with the
code's message is raised. -/
def validateCandidate (content : String) : Except PyErr String :=
  let sql_query := pyStrip content
  if pyStartswith (pyUpper sql_query) "SELECT" then .ok sql_query
  else .error (.valueError
    ("LLM did not generate a valid SELECT query. Instead, it returned: " ++ sql_query))

/-- The message list `generate_cosmos_sql` sends (lines 56-60): the system
prompt with `today_date` substituted by `str.format`, then the last 10
messages of the chat history. `str.format` raising propagates. -/
def generateMessages (today_date : String) (chat_history : List Message) :
    Except PyErr (List Message) :=
  Except.map (fun system_prompt => ⟨"system", system_prompt⟩ :: takeLast 10 chat_history)
    (pyFormat get_system_prompt "today_date" today_date)

/-- `generate_cosmos_sql` (lines 53-76), with the completion service and the
current date abstracted: build the messages, call the service, strip and
validate its output; a raise at any step propagates (monadic sequencing). -/
def generate_cosmos_sql (env : Env) (today_date : String) (chat_history : List Message) :
    Except PyErr String :=
  Except.bind (generateMessages today_date chat_history) (fun msgs =>
    Except.bind (env.completion msgs) (fun content => validateCandidate content))

/-- Line 82: `chat_history[-1]["content"] if chat_history else "the user's question"`. -/
def userQuestion (chat_history : List Message) : String :=
  match chat_history.getLast? with
  | some m => m.content
  | none => "the user's question"

def interpP1 : String := "
    You are an AI assistant. The user's most recent question was:
    \""

def interpP2 : String := "\"

    A database query was executed, and it returned this JSON result:
    "

def interpP3 : String := "

    Based on the result and the ongoing conversation, provide a friendly, natural language answer to the user's question.
    If the result is a single value (like a count), state it clearly.
    If the result is a list of items, summarize them briefly.
    If the result is empty, state that no data was found that matches their request.
    Keep the answer concise and relevant to the last question.
    "

/-- The instruction block `interpret_results` builds (lines 82-97): the
f-string's three literal pieces around the last message's content and
`json.dumps(sql_result, indent=2)`, transcribed verbatim. -/
def interpretPrompt (chat_history : List Message) (sql_result : List Json) : String :=
  interpP1 ++ userQuestion chat_history ++ interpP2 ++ jsonDumps (.jarr sql_result) ++ interpP3

/-- The message list `interpret_results` sends (line 100): its system prompt,
then the last 10 messages of the chat history. -/
def interpretMessages (chat_history : List Message) (sql_result : List Json) : List Message :=
  ⟨"system", interpretPrompt chat_history sql_result⟩ :: takeLast 10 chat_history

/-- `interpret_results` (lines 78-109): build the block, call the completion
service, return its content unmodified. -/
def interpret_results (env : Env) (chat_history : List Message) (sql_result : List Json) :
    Except PyErr String :=
  env.completion (interpretMessages chat_history sql_result)

/-- One `container.query_items` call as issued: the query text, the bound
parameters, and the `enable_cross_partition_query` flag. -/
structure Execution where
  query : String
  parameters : List Param
  enableCrossPartitionQuery : Bool
deriving DecidableEq, Repr

/-- The externally visible effects of one turn: each embedding request's
`input` list, and each store query issued. -/
structure Effects where
  embeddingInputs : List (List String)
  executions : List Execution
deriving DecidableEq, Repr

/-- No effect yet. -/
def noEffects : Effects := ⟨[], []⟩

/-- The stages of the turn handler after synthesis (lines 149-163), applied
to the synthesis outcome: on a raised synthesis error nothing else runs; on
a candidate, if it mentions `VectorDistance`, request one embedding of
`[prompt]` and bind it as the single `@query_vector` parameter, else bind
none; execute with `enable_cross_partition_query=True`; interpret the rows.
The first stage to raise short-circuits; alongside the outcome, the effects
performed up to that point are recorded. -/
def runStagesAfterGen (env : Env) (history : List Message) (prompt : String) :
    Except PyErr String → Except PyErr String × Effects
  | .error e => (.error e, noEffects)
  | .ok sql_query =>
    if pyContains sql_query "VectorDistance" then
      match env.embedding [prompt] with
      | .error e => (.error e, ⟨[[prompt]], []⟩)
      | .ok query_vector =>
        let params := [⟨"@query_vector", query_vector⟩]
        match env.queryItems sql_query params true with
        | .error e => (.error e, ⟨[[prompt]], [⟨sql_query, params, true⟩]⟩)
        | .ok results =>
          (interpret_results env history results, ⟨[[prompt]], [⟨sql_query, params, true⟩]⟩)
    else
      match env.queryItems sql_query [] true with
      | .error e => (.error e, ⟨[], [⟨sql_query, [], true⟩]⟩)
      | .ok results =>
        (interpret_results env history results, ⟨[], [⟨sql_query, [], true⟩]⟩)

/-- The `try` body of the turn handler (lines 143-163): synthesize the
candidate from the history, then run the remaining stages on the outcome. -/
def runStages (env : Env) (today_date : String) (history : List Message) (prompt : String) :
    Except PyErr String × Effects :=
  runStagesAfterGen env history prompt (generate_cosmos_sql env today_date history)

/-- Line 170: the fixed degraded answer of the `except` handler. -/
def degradedAnswer : String := "Sorry, I encountered an error while processing your request."

/-- The assistant content for a staged outcome: the interpreted answer on
success, the fixed degraded answer when a stage raised (lines 163-170). -/
def finalAnswer (outcome : Except PyErr String) : String :=
  match outcome with
  | .ok a => a
  | .error _ => degradedAnswer

/-- One user turn of `render_floating_chat` (lines 134-188): append the
user message, run the staged pipeline on the grown history, and append as
the assistant message either the interpreted answer or, when any stage
raised, the fixed degraded answer. -/
def processTurn (env : Env) (today_date : String) (messages : List Message) (prompt : String) :
    List Message × Effects :=
  let messages1 := messages ++ [⟨"user", prompt⟩]
  let staged := runStages env today_date messages1 prompt
  (messages1 ++ [⟨"assistant", finalAnswer staged.1⟩], staged.2)

/-- Modelled from the spec: the code has no list of data-mutating keywords;
the spec's invariant "must not contain any data-mutating keyword" is read
over the usual mutating statement keywords of a SQL dialect. -/
def mutatingKeywords : List String := ["INSERT", "UPDATE", "DELETE", "UPSERT", "REPLACE", "DROP"]

/-- Whether a candidate contains (case-insensitively) any data-mutating
keyword of the spec's invariant. -/
def containsMutatingKeyword (q : String) : Bool :=
  mutatingKeywords.any (fun k => pyContains (pyUpper q) k)

/-- The system prompt with the date substituted: the text around the
template's one replacement field, with the date in its place. -/
def formattedPrompt (d : String) : String := sysPromptPart1 ++ d ++ sysPromptPart2

/-- The message list the synthesis call sends, once formatting is known to
succeed: the substituted system prompt, then the last 10 history messages. -/
def genMsgs (today_date : String) (chat_history : List Message) : List Message :=
  ⟨"system", formattedPrompt today_date⟩ :: takeLast 10 chat_history

/-- A test environment: the completion service always returns `out`, the
embedding service returns `[1]`, and the store returns no rows. -/
def constEnv (out : String) : Env where
  completion := fun _ => .ok out
  embedding := fun _ => .ok [1]
  queryItems := fun _ _ _ => .ok []

/-- A test environment whose completion call raises. -/
def failEnv : Env where
  completion := fun _ => .error (.serviceError 0)
  embedding := fun _ => .ok [1]
  queryItems := fun _ _ _ => .ok []

/-- A vector-search candidate, as the prompt's Rule 1 template writes it. -/
def vdQuery : String :=
  "SELECT TOP 5 c.id, c.content, c.source_url FROM c ORDER BY VectorDistance(c.contentVector, @query_vector)"

/-- A concrete one-message conversation used on concrete runs. -/
def histC8 : List Message := [⟨"user", "How many events happened today?"⟩]

end AppModel

section FormatLemmas

/-- Mapping twice over an `Except` composes. -/
theorem exceptMap_map {ε α β γ : Type} (f : β → γ) (g : α → β) (x : Except ε α) :
    Except.map f (Except.map g x) = Except.map (fun a => f (g a)) x := by
  cases x <;> rfl

/-- Brace-freeness distributes over list append. -/
theorem braceFreeL_append (a b : List Char) :
    braceFreeL (a ++ b) = (braceFreeL a && braceFreeL b) := by
  simp [braceFreeL, List.all_append]

/-- The format scanner copies a brace-free run of text unchanged. -/
theorem fmtFold_copy_append (key val : List Char) :
    ∀ (a rest : List Char), braceFreeL a = true →
      fmtFold key val (a ++ rest) .copy =
        Except.map (fun t => a ++ t) (fmtFold key val rest .copy) := by
  intro a
  induction a with
  | nil =>
    intro rest _
    rw [List.nil_append]
    cases fmtFold key val rest .copy <;> rfl
  | cons c a ih =>
    intro rest hbf
    simp only [braceFreeL, List.all_cons, Bool.and_eq_true, Bool.not_eq_true',
      Bool.or_eq_false_iff, decide_eq_false_iff_not] at hbf
    obtain ⟨⟨hc1, hc2⟩, hrest⟩ := hbf
    show fmtFold key val (c :: (a ++ rest)) .copy = _
    rw [fmtFold, if_neg hc1, if_neg hc2, ih rest hrest, exceptMap_map]
    cases fmtFold key val rest .copy <;> rfl

/-- A wholly brace-free template is returned as it stands. -/
theorem fmtFold_copy_of_braceFree (key val : List Char) (a : List Char)
    (h : braceFreeL a = true) : fmtFold key val a .copy = .ok a := by
  have h1 := fmtFold_copy_append key val a [] h
  rw [List.append_nil] at h1
  rw [h1]
  show Except.map (fun t => a ++ t) (Except.ok []) = _
  simp [Except.map]

/-- The scanner consumes the replacement field and substitutes the value. -/
theorem fmtFold_placeholder (val : List Char) (rest : List Char) :
    fmtFold "today_date".data val (placeholderChars ++ rest) .copy =
      Except.map (fun t => val ++ t) (fmtFold "today_date".data val rest .copy) := rfl

/-- String data of an append is the append of the data. -/
theorem strData_append (a b : String) : (a ++ b).data = a.data ++ b.data := rfl

/-- Rebuilding a string from appended data is string append. -/
theorem strMk_append (a b : String) : String.mk (a.data ++ b.data) = a ++ b := rfl

/-- Rebuilding a string from its own data gives it back. -/
theorem strMk_data (s : String) : String.mk s.data = s := rfl

/-- Strings with the same character data are equal. -/
theorem strExt {a b : String} (h : a.data = b.data) : a = b := by
  cases a
  cases b
  simp only at h
  rw [h]

/-- String append is associative. -/
theorem strAppend_assoc (a b c : String) : (a ++ b) ++ c = a ++ (b ++ c) := by
  apply strExt
  rw [strData_append, strData_append, strData_append, strData_append, List.append_assoc]

/-- The text before the replacement field is brace-free. -/
theorem sysPromptPart1_braceFree : braceFree sysPromptPart1 = true := by
  have h : sysPromptPart1 = sysP1c00 ++ sysP1c01 ++ sysP1c02 := rfl
  rw [braceFree, h, strData_append, strData_append, braceFreeL_append, braceFreeL_append]
  set_option maxRecDepth 8192 in decide

/-- The text after the replacement field is brace-free. -/
theorem sysPromptPart2_braceFree : braceFree sysPromptPart2 = true := by
  have h : sysPromptPart2 =
      sysP2c00 ++ sysP2c01 ++ sysP2c02 ++ sysP2c03 ++ sysP2c04 ++ refusalQuery ++ sysP2end := rfl
  rw [braceFree, h]
  rw [strData_append, strData_append, strData_append, strData_append, strData_append,
    strData_append]
  rw [braceFreeL_append, braceFreeL_append, braceFreeL_append, braceFreeL_append,
    braceFreeL_append, braceFreeL_append]
  set_option maxRecDepth 8192 in decide

/-- Substituting any date string into the system prompt template succeeds and
yields the brace-free prefix, the date, and the brace-free suffix. -/
theorem pyFormat_system_prompt (d : String) :
    pyFormat get_system_prompt "today_date" d =
      .ok (sysPromptPart1 ++ d ++ sysPromptPart2) := by
  have hdata : get_system_prompt.data =
      sysPromptPart1.data ++ (placeholderChars ++ sysPromptPart2.data) := by
    show (sysPromptPart1 ++ todayPlaceholder ++ sysPromptPart2).data = _
    rw [strData_append, strData_append, List.append_assoc]
    rfl
  rw [pyFormat, hdata,
    fmtFold_copy_append _ _ _ _ sysPromptPart1_braceFree,
    fmtFold_placeholder,
    fmtFold_copy_of_braceFree _ _ _ sysPromptPart2_braceFree]
  simp only [Except.map]
  rw [← List.append_assoc, ← strData_append sysPromptPart1 d,
    ← strData_append (sysPromptPart1 ++ d) sysPromptPart2, strMk_data]

end FormatLemmas


theorem generateMessages_eq (d : String) (h : List Message) :
    generateMessages d h = .ok (genMsgs d h) := by
  show Except.map (fun system_prompt => (⟨"system", system_prompt⟩ : Message) :: takeLast 10 h)
    (pyFormat get_system_prompt "today_date" d) = _
  rw [pyFormat_system_prompt]
  rfl

theorem generate_cosmos_sql_eq (env : Env) (d : String) (h : List Message) :
    generate_cosmos_sql env d h =
      Except.bind (env.completion (genMsgs d h)) (fun content => validateCandidate content) := by
  show Except.bind (generateMessages d h) (fun msgs =>
    Except.bind (env.completion msgs) (fun content => validateCandidate content)) = _
  rw [generateMessages_eq]
  rfl

theorem runStages_eq (env : Env) (d : String) (history : List Message) (prompt : String) :
    runStages env d history prompt =
      runStagesAfterGen env history prompt
        (Except.bind (env.completion (genMsgs d history))
          (fun content => validateCandidate content)) := by
  show runStagesAfterGen env history prompt (generate_cosmos_sql env d history) = _
  rw [generate_cosmos_sql_eq]

/-- With a completion output in hand, synthesis is exactly strip-and-validate. -/
theorem generate_cosmos_sql_ok_completion (env : Env) (d : String) (h : List Message)
    (raw : String) (hc : env.completion (genMsgs d h) = .ok raw) :
    generate_cosmos_sql env d h = validateCandidate raw := by
  rw [generate_cosmos_sql_eq, hc]
  rfl

/-- A raising completion call propagates out of synthesis. -/
theorem generate_cosmos_sql_err_completion (env : Env) (d : String) (h : List Message)
    (e : PyErr) (hc : env.completion (genMsgs d h) = .error e) :
    generate_cosmos_sql env d h = .error e := by
  rw [generate_cosmos_sql_eq, hc]
  rfl

/-- Validation accepts exactly the candidates whose uppercased strip starts
with SELECT. -/
theorem validateCandidate_ok (content : String)
    (h : pyStartswith (pyUpper (pyStrip content)) "SELECT" = true) :
    validateCandidate content = .ok (pyStrip content) := by
  simp only [validateCandidate]
  rw [if_pos h]

/-- Validation rejects every other candidate with the code's ValueError. -/
theorem validateCandidate_err (content : String)
    (h : pyStartswith (pyUpper (pyStrip content)) "SELECT" = false) :
    validateCandidate content = .error (.valueError
      ("LLM did not generate a valid SELECT query. Instead, it returned: " ++ pyStrip content)) := by
  simp only [validateCandidate]
  rw [if_neg (by simp [h])]

/-- A brace-free character list contains neither brace. -/
theorem braceFreeL_count_zero {l : List Char} (h : braceFreeL l = true) :
    l.count lbChar = 0 ∧ l.count rbChar = 0 := by
  simp only [braceFreeL, List.all_eq_true, Bool.not_eq_true', Bool.or_eq_false_iff,
    decide_eq_false_iff_not] at h
  refine ⟨?_, ?_⟩
  · rw [List.count_eq_zero]
    intro hmem
    exact (h lbChar hmem).1 rfl
  · rw [List.count_eq_zero]
    intro hmem
    exact (h rbChar hmem).2 rfl

/-- C1 counterexample: the code's validation accepts any candidate whose
uppercased strip has "SELECT" as a prefix, so the completion output
"SELECTED * FROM c" is returned as the candidate even though its first
word, case-insensitively, is not SELECT — refuting the claim's
"first word equals SELECT" reading. -/
theorem c1_counterexample :
    generate_cosmos_sql (constEnv "SELECTED * FROM c") "2026-10-12" [] =
        .ok "SELECTED * FROM c" ∧
      firstWord (pyUpper (pyStrip "SELECTED * FROM c")) ≠ "SELECT" := by
  constructor
  · rw [generate_cosmos_sql_ok_completion (constEnv "SELECTED * FROM c") "2026-10-12" []
      "SELECTED * FROM c" rfl]
    rfl
  · decide

/-- C1 (amended): for every string the completion service returns during
synthesis, the stripped candidate is returned iff its uppercased form
starts with the prefix "SELECT" (case-insensitive); any other output makes
the synthesizer raise a ValueError with the code's message, which reaches
the turn boundary before any embedding request or store execution. -/
theorem c1_prefix_validation (env : Env) (d prompt : String) (hist : List Message)
    (raw : String) (hc : env.completion (genMsgs d hist) = .ok raw) :
    (generate_cosmos_sql env d hist = .ok (pyStrip raw) ↔
      pyStartswith (pyUpper (pyStrip raw)) "SELECT" = true) ∧
    (pyStartswith (pyUpper (pyStrip raw)) "SELECT" = false →
      generate_cosmos_sql env d hist = .error (.valueError
        ("LLM did not generate a valid SELECT query. Instead, it returned: " ++ pyStrip raw)) ∧
      runStages env d hist prompt = (.error (.valueError
        ("LLM did not generate a valid SELECT query. Instead, it returned: " ++ pyStrip raw)),
        noEffects)) := by
  have hg := generate_cosmos_sql_ok_completion env d hist raw hc
  constructor
  · constructor
    · intro hok
      by_contra hsw
      rw [Bool.not_eq_true] at hsw
      rw [hg, validateCandidate_err raw hsw] at hok
      cases hok
    · intro hsw
      rw [hg, validateCandidate_ok raw hsw]
  · intro hsw
    have herr := validateCandidate_err raw hsw
    refine ⟨hg.trans herr, ?_⟩
    have hrs : runStages env d hist prompt =
        runStagesAfterGen env hist prompt (generate_cosmos_sql env d hist) := rfl
    rw [hrs, hg, herr]
    rfl

/-- C1 witness: the amended theorem applied to a service that returns
" select 1 ", whose stripped uppercase starts with SELECT. -/
theorem c1_prefix_validation_witness :
    (constEnv " select 1 ").completion (genMsgs "2026-10-12" []) = .ok " select 1 " ∧
    ((generate_cosmos_sql (constEnv " select 1 ") "2026-10-12" [] = .ok (pyStrip " select 1 ") ↔
        pyStartswith (pyUpper (pyStrip " select 1 ")) "SELECT" = true) ∧
      (pyStartswith (pyUpper (pyStrip " select 1 ")) "SELECT" = false →
        generate_cosmos_sql (constEnv " select 1 ") "2026-10-12" [] = .error (.valueError
          ("LLM did not generate a valid SELECT query. Instead, it returned: " ++
            pyStrip " select 1 ")) ∧
        runStages (constEnv " select 1 ") "2026-10-12" [] "q" = (.error (.valueError
          ("LLM did not generate a valid SELECT query. Instead, it returned: " ++
            pyStrip " select 1 ")), noEffects))) :=
  ⟨rfl, c1_prefix_validation (constEnv " select 1 ") "2026-10-12" "q" [] " select 1 " rfl⟩

/-- C2 counterexample: validation only checks the SELECT prefix, so a
candidate that contains the data-mutating keyword DELETE is still returned,
refuting "contains no data-mutating keyword, for every possible
completion-service output". -/
theorem c2_counterexample :
    generate_cosmos_sql (constEnv "SELECT * FROM c WHERE CONTAINS(c.content, 'DELETE')")
        "2026-10-12" [] =
      .ok "SELECT * FROM c WHERE CONTAINS(c.content, 'DELETE')" ∧
    containsMutatingKeyword "SELECT * FROM c WHERE CONTAINS(c.content, 'DELETE')" = true := by
  constructor
  · rw [generate_cosmos_sql_ok_completion
      (constEnv "SELECT * FROM c WHERE CONTAINS(c.content, 'DELETE')") "2026-10-12" []
      "SELECT * FROM c WHERE CONTAINS(c.content, 'DELETE')" rfl]
    rfl
  · decide

/-- C2 (amended): every candidate `generate_cosmos_sql` returns begins,
case-insensitively, with the read-only keyword SELECT; the validation
checks nothing else, so absence of data-mutating keywords is not enforced. -/
theorem c2_candidates_start_with_select (env : Env) (d : String) (hist : List Message)
    (q : String) (hq : generate_cosmos_sql env d hist = .ok q) :
    pyStartswith (pyUpper q) "SELECT" = true := by
  cases hc : env.completion (genMsgs d hist) with
  | error e =>
    rw [generate_cosmos_sql_err_completion env d hist e hc] at hq
    exact Except.noConfusion hq
  | ok content =>
    rw [generate_cosmos_sql_ok_completion env d hist content hc] at hq
    by_cases hsw : pyStartswith (pyUpper (pyStrip content)) "SELECT" = true
    · rw [validateCandidate_ok content hsw] at hq
      cases hq
      exact hsw
    · rw [Bool.not_eq_true] at hsw
      rw [validateCandidate_err content hsw] at hq
      exact Except.noConfusion hq

/-- C2 witness: the amended theorem applied to a service returning an
aggregate query. -/
theorem c2_candidates_start_with_select_witness :
    generate_cosmos_sql (constEnv "SELECT VALUE COUNT(1) FROM c") "2026-10-12" [] =
        .ok "SELECT VALUE COUNT(1) FROM c" ∧
      pyStartswith (pyUpper "SELECT VALUE COUNT(1) FROM c") "SELECT" = true :=
  have hg : generate_cosmos_sql (constEnv "SELECT VALUE COUNT(1) FROM c") "2026-10-12" [] =
      .ok "SELECT VALUE COUNT(1) FROM c" := by
    rw [generate_cosmos_sql_ok_completion (constEnv "SELECT VALUE COUNT(1) FROM c")
      "2026-10-12" [] "SELECT VALUE COUNT(1) FROM c" rfl]
    rfl
  ⟨hg, c2_candidates_start_with_select (constEnv "SELECT VALUE COUNT(1) FROM c")
    "2026-10-12" [] "SELECT VALUE COUNT(1) FROM c" hg⟩

/-- C3: for every synthesized candidate, if it contains the substring
VectorDistance the turn requests exactly one embedding, of the raw current
question, and binds exactly one parameter named @query_vector carrying the
returned vector, executing the pair cross-partition; if it does not, it
requests no embedding, binds zero parameters and executes cross-partition.
(If the embedding call itself raises, one request was made and nothing is
executed.) -/
theorem c3_vector_distance_parameters (env : Env) (d prompt : String) (hist : List Message)
    (sql_query : String) (hg : generate_cosmos_sql env d hist = .ok sql_query) :
    (pyContains sql_query "VectorDistance" = true →
      (∀ v, env.embedding [prompt] = .ok v →
        (runStages env d hist prompt).2 =
          ⟨[[prompt]], [⟨sql_query, [⟨"@query_vector", v⟩], true⟩]⟩) ∧
      (∀ e, env.embedding [prompt] = .error e →
        (runStages env d hist prompt).2 = ⟨[[prompt]], []⟩)) ∧
    (pyContains sql_query "VectorDistance" = false →
      (runStages env d hist prompt).2 = ⟨[], [⟨sql_query, [], true⟩]⟩) := by
  have hrs : runStages env d hist prompt = runStagesAfterGen env hist prompt (.ok sql_query) := by
    show runStagesAfterGen env hist prompt (generate_cosmos_sql env d hist) = _
    rw [hg]
  constructor
  · intro hvd
    constructor
    · intro v hv
      rw [hrs]
      simp only [runStagesAfterGen, if_pos hvd, hv]
      cases hq : env.queryItems sql_query [⟨"@query_vector", v⟩] true <;> rfl
    · intro e he
      rw [hrs]
      simp only [runStagesAfterGen, if_pos hvd, he]
  · intro hvd
    rw [hrs]
    have hneg : ¬ (pyContains sql_query "VectorDistance" = true) := by simp [hvd]
    simp only [runStagesAfterGen, if_neg hneg]
    cases hq : env.queryItems sql_query [] true <;> rfl

/-- C3 witness: the theorem applied to a vector-search candidate and to an
aggregate candidate under a concrete environment. -/
theorem c3_vector_distance_parameters_witness :
    generate_cosmos_sql (constEnv vdQuery) "2026-10-12" [] = .ok vdQuery ∧
    pyContains vdQuery "VectorDistance" = true ∧
    (constEnv vdQuery).embedding ["hello"] = .ok [1] ∧
    (runStages (constEnv vdQuery) "2026-10-12" [] "hello").2 =
      ⟨[["hello"]], [⟨vdQuery, [⟨"@query_vector", [1]⟩], true⟩]⟩ :=
  have hg : generate_cosmos_sql (constEnv vdQuery) "2026-10-12" [] = .ok vdQuery := by
    rw [generate_cosmos_sql_ok_completion (constEnv vdQuery) "2026-10-12" [] vdQuery rfl]
    rfl
  have hvd : pyContains vdQuery "VectorDistance" = true := by decide
  ⟨hg, hvd, rfl,
    ((c3_vector_distance_parameters (constEnv vdQuery) "2026-10-12" "hello" [] vdQuery hg).1
      hvd).1 [1] rfl⟩

/-- C4: every turn appends exactly the user message and then one assistant
message to the conversation; the prior messages are untouched, so the
length grows by exactly two whatever the stages do. -/
theorem c4_turn_grows_by_two (env : Env) (d : String) (messages : List Message)
    (prompt : String) :
    ∃ answer : String,
      (processTurn env d messages prompt).1 =
        messages ++ [⟨"user", prompt⟩, ⟨"assistant", answer⟩] ∧
      (processTurn env d messages prompt).1.length = messages.length + 2 := by
  have hpt : (processTurn env d messages prompt).1 =
      (messages ++ [⟨"user", prompt⟩]) ++ [⟨"assistant",
        finalAnswer (runStages env d (messages ++ [⟨"user", prompt⟩]) prompt).1⟩] := rfl
  refine ⟨finalAnswer (runStages env d (messages ++ [⟨"user", prompt⟩]) prompt).1, ?_, ?_⟩
  · rw [hpt, List.append_assoc]
    rfl
  · rw [hpt]
    simp

/-- C5: whenever any stage of the turn raises, the turn completes and the
assistant message appended for the turn is exactly the fixed degraded
answer string. -/
theorem c5_degraded_answer (env : Env) (d : String) (messages : List Message)
    (prompt : String) (e : PyErr)
    (h : (runStages env d (messages ++ [⟨"user", prompt⟩]) prompt).1 = .error e) :
    (processTurn env d messages prompt).1 =
      messages ++ [⟨"user", prompt⟩, ⟨"assistant", degradedAnswer⟩] := by
  have hpt : (processTurn env d messages prompt).1 =
      (messages ++ [⟨"user", prompt⟩]) ++ [⟨"assistant",
        finalAnswer (runStages env d (messages ++ [⟨"user", prompt⟩]) prompt).1⟩] := rfl
  rw [hpt, h, List.append_assoc]
  rfl

/-- C5 witness: the theorem applied to an environment whose completion call
raises. -/
theorem c5_degraded_answer_witness :
    (runStages failEnv "2026-10-12" ([] ++ [⟨"user", "hi"⟩]) "hi").1 =
        .error (.serviceError 0) ∧
      (processTurn failEnv "2026-10-12" [] "hi").1 =
        [] ++ [⟨"user", "hi"⟩, ⟨"assistant", degradedAnswer⟩] :=
  have h : (runStages failEnv "2026-10-12" ([] ++ [⟨"user", "hi"⟩]) "hi").1 =
      .error (.serviceError 0) := by
    rw [runStages_eq]
    rfl
  ⟨h, c5_degraded_answer failEnv "2026-10-12" [] "hi" (.serviceError 0) h⟩

/-- C6: the canonical refusal query named by the synthesis instruction block
(a SELECT of the literal failure message) is part of the system prompt text,
passes validation unchanged, mentions no VectorDistance, and flows through
the normal execution and interpretation path like any other candidate. -/
theorem c6_refusal_query_valid :
    (∃ a b : String, get_system_prompt = a ++ refusalQuery ++ b) ∧
    validateCandidate refusalQuery = .ok refusalQuery ∧
    pyContains refusalQuery "VectorDistance" = false ∧
    (∀ (env : Env) (d prompt : String) (hist : List Message) (rows : List Json) (ans : String),
      env.completion (genMsgs d hist) = .ok refusalQuery →
      env.queryItems refusalQuery [] true = .ok rows →
      env.completion (interpretMessages hist rows) = .ok ans →
      runStages env d hist prompt = (.ok ans, ⟨[], [⟨refusalQuery, [], true⟩]⟩)) := by
  refine ⟨⟨sysPromptPart1 ++ todayPlaceholder ++
      (sysP2c00 ++ sysP2c01 ++ sysP2c02 ++ sysP2c03 ++ sysP2c04), sysP2end, ?_⟩,
    rfl, by decide, ?_⟩
  · apply strExt
    simp only [get_system_prompt, sysPromptPart2, strData_append, List.append_assoc]
  · intro env d prompt hist rows ans hcomp hquery hinterp
    have hg : generate_cosmos_sql env d hist = .ok refusalQuery := by
      rw [generate_cosmos_sql_ok_completion env d hist refusalQuery hcomp]
      rfl
    have hrs : runStages env d hist prompt =
        runStagesAfterGen env hist prompt (.ok refusalQuery) := by
      show runStagesAfterGen env hist prompt (generate_cosmos_sql env d hist) = _
      rw [hg]
    rw [hrs]
    have hneg : ¬ (pyContains refusalQuery "VectorDistance" = true) := by decide
    simp only [runStagesAfterGen, if_neg hneg]
    rw [hquery]
    show (interpret_results env hist rows, (⟨[], [⟨refusalQuery, [], true⟩]⟩ : Effects)) = _
    show (env.completion (interpretMessages hist rows), (⟨[], [⟨refusalQuery, [], true⟩]⟩ : Effects)) = _
    rw [hinterp]

/-- C6 witness: the theorem applied to a service that returns the refusal
query for every call. -/
theorem c6_refusal_query_valid_witness :
    (constEnv refusalQuery).completion (genMsgs "2026-10-12" []) = .ok refusalQuery ∧
    (constEnv refusalQuery).queryItems refusalQuery [] true = .ok [] ∧
    (constEnv refusalQuery).completion (interpretMessages [] []) = .ok refusalQuery ∧
    runStages (constEnv refusalQuery) "2026-10-12" [] "hello" =
      (.ok refusalQuery, ⟨[], [⟨refusalQuery, [], true⟩]⟩) :=
  ⟨rfl, rfl, rfl,
    (c6_refusal_query_valid.2.2.2) (constEnv refusalQuery) "2026-10-12" "hello" [] []
      refusalQuery rfl rfl rfl⟩

/-- C7: both generative calls of a turn send exactly one system instruction
message followed by the last 10 conversation messages (all of them when the
history is shorter): synthesis sends the date-substituted system prompt,
interpretation sends the result-bearing block; the window is a suffix of
the history of length `min 10 (length)`. -/
theorem c7_bounded_window (d : String) (h : List Message) (r : List Json) :
    generateMessages d h = .ok (⟨"system", formattedPrompt d⟩ :: takeLast 10 h) ∧
    interpretMessages h r = ⟨"system", interpretPrompt h r⟩ :: takeLast 10 h ∧
    (takeLast 10 h).length = min 10 h.length ∧
    takeLast 10 h <:+ h := by
  refine ⟨generateMessages_eq d h, rfl, ?_, List.drop_suffix _ _⟩
  rw [takeLast, List.length_drop]
  omega

/-- C8 counterexample: on a concrete turn the interpretation block contains
no directive about source links, citations or bulleted lists — not even the
words — refuting the claim's directives (b) and (a). -/
theorem c8_counterexample :
    interpretPrompt histC8 [] =
        interpP1 ++ "How many events happened today?" ++ interpP2 ++ "[]" ++ interpP3 ∧
      pyContains (pyUpper (interpretPrompt histC8 [])) "LINK" = false ∧
      pyContains (pyUpper (interpretPrompt histC8 [])) "CITATION" = false ∧
      pyContains (pyUpper (interpretPrompt histC8 [])) "BULLET" = false ∧
      pyContains (pyUpper (interpretPrompt histC8 [])) "SOURCE" = false := by
  refine ⟨rfl, ?_, ?_, ?_, ?_⟩ <;> (set_option maxRecDepth 8192 in decide)

/-- C8 (amended): for every conversation and result set, the interpretation
block embeds the JSON serialization of the results and the content of the
last conversation message (the current user question at the call site), and
directs a friendly answer that states a single value clearly, summarizes a
list briefly and reports when no data was found; it carries no directive
about source links, citations or bulleted lists. -/
theorem c8_interpretation_block (h : List Message) (r : List Json) :
    interpretPrompt h r =
        interpP1 ++ userQuestion h ++ interpP2 ++ jsonDumps (.jarr r) ++ interpP3 ∧
      pyContains interpP3 "If the result is a single value (like a count), state it clearly." = true ∧
      pyContains interpP3 "If the result is a list of items, summarize them briefly." = true ∧
      pyContains interpP3
        "If the result is empty, state that no data was found that matches their request." = true ∧
      pyContains (pyUpper interpP3) "LINK" = false ∧
      pyContains (pyUpper interpP3) "BULLET" = false := by
  refine ⟨rfl, ?_, ?_, ?_, ?_, ?_⟩ <;> (set_option maxRecDepth 8192 in decide)

/-- C9: calling the interpreter with an empty conversation does not fail:
the placeholder text stands in for the missing last user message, and the
call still sends the single system instruction block. -/
theorem c9_empty_history (r : List Json) :
    interpretMessages [] r = [⟨"system", interpretPrompt [] r⟩] ∧
    interpretPrompt [] r =
      interpP1 ++ "the user's question" ++ interpP2 ++ jsonDumps (.jarr r) ++ interpP3 ∧
    ∀ env : Env, interpret_results env [] r = env.completion [⟨"system", interpretPrompt [] r⟩] :=
  ⟨rfl, rfl, fun _ => rfl⟩

/-- C10: the system prompt template holds exactly one replacement field,
the braces around today_date, and no other brace; hence formatting with any
date string succeeds and embeds the date literally between the template's
brace-free prefix and suffix. -/
theorem c10_single_placeholder :
    get_system_prompt.data.count lbChar = 1 ∧
    get_system_prompt.data.count rbChar = 1 ∧
    (∃ a b : String, get_system_prompt = a ++ todayPlaceholder ++ b ∧
      braceFree a = true ∧ braceFree b = true) ∧
    (∀ d : String,
      pyFormat get_system_prompt "today_date" d =
          .ok (sysPromptPart1 ++ d ++ sysPromptPart2) ∧
        ∃ a b : String, pyFormat get_system_prompt "today_date" d = .ok (a ++ d ++ b)) := by
  have hdata : get_system_prompt.data =
      sysPromptPart1.data ++ (placeholderChars ++ sysPromptPart2.data) := by
    show (sysPromptPart1 ++ todayPlaceholder ++ sysPromptPart2).data = _
    rw [strData_append, strData_append, List.append_assoc]
    rfl
  have h1 := braceFreeL_count_zero (l := sysPromptPart1.data) sysPromptPart1_braceFree
  have h2 := braceFreeL_count_zero (l := sysPromptPart2.data) sysPromptPart2_braceFree
  refine ⟨?_, ?_,
    ⟨sysPromptPart1, sysPromptPart2, rfl, sysPromptPart1_braceFree, sysPromptPart2_braceFree⟩,
    fun d => ⟨pyFormat_system_prompt d,
      sysPromptPart1, sysPromptPart2, pyFormat_system_prompt d⟩⟩
  · rw [hdata, List.count_append, List.count_append, h1.1, h2.1]
    decide
  · rw [hdata, List.count_append, List.count_append, h1.2, h2.2]
    decide
